import Mathlib

/-!
Verification of the userdata / app-data layer of the `mlua` bridge.

This development shallowly embeds the code of `src/userdata.rs` and
`src/types/app_data.rs`.  Lua values are modelled by an inductive `LuaValue`,
Rust `TypeId`s and opaque host values by `Nat`, fallible Rust functions by
`Except Error`, and Rust panics by `Option` / a dedicated `fault` constructor.
Stateful operations take the relevant state explicitly and return the updated
state on success; a function that returns `.error` leaves the caller's state
untouched, which models the fact that the Rust code returns early before any
mutation on those paths.

Parts of the repository that the embedded functions call but that are not part
of the given sources (the borrow-tracking cell in `userdata/cell.rs`, the
`take_userdata` / `push_userdata_ref` helpers, and the error enum) are modelled
from the specification; each such definition carries a doc comment saying so.
-/

namespace Mlua

/-- A dynamic value of the scripting engine (the closed value-kind set). -/
inductive LuaValue where
  | nil
  | boolean (b : Bool)
  | integer (n : Int)
  | str (s : String)
  | other (id : Nat)
deriving DecidableEq, Repr

/-- Modelled from the spec: the error enum lives in `src/error.rs`, which is not
among the given sources.  §7 of the spec lists the kinds; the constructor names
follow the variants the given sources mention (`Error::UserDataTypeMismatch`,
`Error::MetaMethodRestricted`, `Error::runtime(..)`), plus the borrow and
destructed kinds named by the spec. -/
inductive Error where
  | UserDataTypeMismatch
  | UserDataBorrowError
  | UserDataBorrowMutError
  | UserDataDestructed
  | MetaMethodRestricted (name : String)
  | RuntimeError (msg : String)
deriving DecidableEq, Repr

/-- Embeds Rust `str::starts_with` (byte/char prefix test). -/
def strStarts (s p : String) : Bool := p.data.isPrefixOf s.data

/-- Embeds `MetaMethod::validate` (src/userdata.rs:241-248): `__gc`,
`__metatable` and any name beginning with `__mlua` are rejected with
`MetaMethodRestricted`; every other name is returned unchanged. -/
def MetaMethod.validate (name : String) : Except Error String :=
  if name = "__gc" then .error (.MetaMethodRestricted name)
  else if name = "__metatable" then .error (.MetaMethodRestricted name)
  else if strStarts name "__mlua" then .error (.MetaMethodRestricted name)
  else .ok name

/-- A userdata metatable, as the raw-get view of a Lua table: absent keys read
as `nil`. -/
abbrev Metatable := String → LuaValue

/-- Embeds `UserDataMetatable::get` (src/userdata.rs:1074-1076): validate the
key, then `raw_get`. -/
def UserDataMetatable.get (mt : Metatable) (key : String) : Except Error LuaValue :=
  (MetaMethod.validate key).map fun k => mt k

/-- Embeds `UserDataMetatable::set` (src/userdata.rs:1084-1091): validate the
key, additionally reject `__index` / `__newindex` (cached internally), then
`raw_set`. -/
def UserDataMetatable.set (mt : Metatable) (key : String) (v : LuaValue) :
    Except Error Metatable :=
  match MetaMethod.validate key with
  | .error e => .error e
  | .ok k =>
    if k = "__index" ∨ k = "__newindex" then .error (.MetaMethodRestricted k)
    else .ok (fun s => if s = k then v else mt s)

/-- Embeds `UserDataMetatable::contains` (src/userdata.rs:1094-1096): validate
the key, then `contains_key` (non-nil raw value). -/
def UserDataMetatable.contains (mt : Metatable) (key : String) : Except Error Bool :=
  (MetaMethod.validate key).map fun k => decide (mt k ≠ LuaValue.nil)

/-- Modelled from the spec: the borrow-state of a Foreign Object Cell
(`src/userdata/cell.rs` is not among the given sources).  §3 of the spec gives
the three logical states Unborrowed, Shared(n>0), Exclusive. -/
inductive BorrowState where
  | unborrowed
  | shared (n : Nat)
  | exclusive
deriving DecidableEq, Repr

/-- The heap slot of a userdata: either it still wraps a live host value (its
normal metatable installed), or `take` has removed the value and installed the
permanent "destructed" sentinel metatable. -/
inductive Slot where
  | live (v : Nat)
  | destructed
deriving DecidableEq, Repr

/-- The table that emulates user values beyond the fast native slots.  It holds
both integer-keyed entries (`rawseti` / `rawgeti`) and name-keyed entries
(`rawset` / `rawget`); absent keys read as `nil`. -/
structure OverflowTable where
  ints : Nat → LuaValue
  names : String → LuaValue

/-- A fresh overflow table (`lua_newtable`): every key reads as `nil`. -/
def emptyOverflow : OverflowTable := ⟨fun _ => .nil, fun _ => .nil⟩

/-- `USER_VALUE_MAXSLOT` (src/userdata.rs:34), the Lua 5.4 configuration:
indices below it use native `lua_setiuservalue` slots, the slot with this
number holds the overflow table. -/
def USER_VALUE_MAXSLOT : Nat := 8

/-- `u16::MAX as usize`, the largest legal user-value index. -/
def U16_MAX : Nat := 65535

/-- The state behind one `AnyUserData` handle: the stored type identity
(`TypeId`, `none` for userdata not registered through this layer), the heap
slot, the cell's borrow state, the fast native user-value slots (indices
`1..USER_VALUE_MAXSLOT-1`), and the optional overflow table. -/
structure UserDataState where
  typeId : Option Nat
  slot : Slot
  borrow : BorrowState
  fastSlots : Nat → LuaValue
  overflow : Option OverflowTable

/-- Modelled from the spec: `Lua::get_userdata_ref_type_id` /
`push_userdata_ref` live outside the given sources.  Per the spec, a slot
demoted to the permanent "destructed" sentinel "rejects all further access"
with the dedicated Destructed error; otherwise the stored type identity is
returned. -/
def getUserdataRefTypeId (ud : UserDataState) : Except Error (Option Nat) :=
  match ud.slot with
  | .destructed => .error .UserDataDestructed
  | .live _ => .ok ud.typeId

/-- Modelled from the spec: `UserDataVariant::try_borrow` of the cell
(`src/userdata/cell.rs` is not among the given sources); §4.1: shared guard or
BorrowConflict (conflict exactly when an exclusive borrow is live). -/
def tryBorrowCell (b : BorrowState) : Except Error BorrowState :=
  match b with
  | .exclusive => .error .UserDataBorrowError
  | .unborrowed => .ok (.shared 1)
  | .shared n => .ok (.shared (n + 1))

/-- Modelled from the spec: `UserDataVariant::try_borrow_mut` of the cell;
§4.1: exclusive guard or BorrowConflict (succeeds only with zero outstanding
borrows). -/
def tryBorrowMutCell (b : BorrowState) : Except Error BorrowState :=
  match b with
  | .unborrowed => .ok .exclusive
  | _ => .error .UserDataBorrowMutError

/-- Embeds `AnyUserData::is` (src/userdata.rs:662-664): `inspect` with a no-op
body, so it is `true` exactly when the destructed/type-identity checks pass. -/
def AnyUserData.is (ud : UserDataState) (T : Nat) : Bool :=
  match ud.slot with
  | .destructed => false
  | .live _ =>
    match ud.typeId with
    | some t => decide (t = T)
    | none => false

/-- Embeds `AnyUserData::borrow` (src/userdata.rs:673-675) =
`inspect (try_make_ref)`: destructed check, then type-identity check, then the
cell's shared-borrow acquisition.  On success it returns the wrapped value
together with the post-state carrying the new borrow count. -/
def AnyUserData.borrow (ud : UserDataState) (T : Nat) :
    Except Error (Nat × UserDataState) :=
  match ud.slot with
  | .destructed => .error .UserDataDestructed
  | .live v =>
    match ud.typeId with
    | some t =>
      if t = T then
        match tryBorrowCell ud.borrow with
        | .ok b2 => .ok (v, { ud with borrow := b2 })
        | .error e => .error e
      else .error .UserDataTypeMismatch
    | none => .error .UserDataTypeMismatch

/-- Embeds `AnyUserData::borrow_mut` (src/userdata.rs:684-686) =
`inspect (try_make_mut_ref)`. -/
def AnyUserData.borrow_mut (ud : UserDataState) (T : Nat) :
    Except Error (Nat × UserDataState) :=
  match ud.slot with
  | .destructed => .error .UserDataDestructed
  | .live v =>
    match ud.typeId with
    | some t =>
      if t = T then
        match tryBorrowMutCell ud.borrow with
        | .ok b2 => .ok (v, { ud with borrow := b2 })
        | .error e => .error e
      else .error .UserDataTypeMismatch
    | none => .error .UserDataTypeMismatch

/-- Embeds `AnyUserData::take` (src/userdata.rs:692-709): `push_userdata_ref`
(rejects a destructed slot), the type-identity match, an exclusive borrow via
`try_borrow_mut` whose guard is dropped at once (`let _ = ..?`), then
`take_userdata(..).into_inner()`.  `take_userdata` is not among the given
sources; modelled from the spec it "physically removes the value and overwrites
the slot's dispatch metadata with a permanent destructed sentinel", leaving the
user values in place (doc comment at src/userdata.rs:691). -/
def AnyUserData.take (ud : UserDataState) (T : Nat) :
    Except Error (Nat × UserDataState) :=
  match ud.slot with
  | .destructed => .error .UserDataDestructed
  | .live v =>
    match ud.typeId with
    | some t =>
      if t = T then
        match tryBorrowMutCell ud.borrow with
        | .ok _ => .ok (v, { ud with slot := .destructed })
        | .error e => .error e
      else .error .UserDataTypeMismatch
    | none => .error .UserDataTypeMismatch

/-- Modelled from the spec: the dedicated out-of-range error for user-value
indices.  `src/error.rs` is not among the given sources; the code raises it as
`Error::runtime("user value index out of bounds")`
(src/userdata.rs:753, 806), the kind the spec names UserValueIndexOutOfRange. -/
def userValueIndexOutOfRange : Error := .RuntimeError "user value index out of bounds"

/-- Embeds `AnyUserData::set_nth_user_value` (src/userdata.rs:751-793), Lua 5.4
configuration: range check `n < 1 || n > u16::MAX`, then push the userdata
(rejects a destructed slot), then either `lua_setiuservalue` into fast native
slot `n` (when `n < USER_VALUE_MAXSLOT`) or `lua_rawseti` into the overflow
table at key `n - USER_VALUE_MAXSLOT + 1`, creating that table on first use. -/
def AnyUserData.set_nth_user_value (ud : UserDataState) (n : Nat) (v : LuaValue) :
    Except Error UserDataState :=
  if n < 1 ∨ n > U16_MAX then .error userValueIndexOutOfRange
  else
    match ud.slot with
    | .destructed => .error .UserDataDestructed
    | .live _ =>
      if n < USER_VALUE_MAXSLOT then
        .ok { ud with fastSlots := fun m => if m = n then v else ud.fastSlots m }
      else
        let t := ud.overflow.getD emptyOverflow
        let t2 : OverflowTable :=
          { t with ints := fun m => if m = n - USER_VALUE_MAXSLOT + 1 then v else t.ints m }
        .ok { ud with overflow := some t2 }

/-- Embeds `AnyUserData::nth_user_value` (src/userdata.rs:804-837), Lua 5.4
configuration: range check, push the userdata (rejects a destructed slot), then
either `lua_getiuservalue` from fast native slot `n` or `lua_rawgeti` from the
overflow table at key `n - USER_VALUE_MAXSLOT + 1` (`nil` when no overflow
table exists). -/
def AnyUserData.nth_user_value (ud : UserDataState) (n : Nat) :
    Except Error LuaValue :=
  if n < 1 ∨ n > U16_MAX then .error userValueIndexOutOfRange
  else
    match ud.slot with
    | .destructed => .error .UserDataDestructed
    | .live _ =>
      if n < USER_VALUE_MAXSLOT then .ok (ud.fastSlots n)
      else
        match ud.overflow with
        | none => .ok .nil
        | some t => .ok (t.ints (n - USER_VALUE_MAXSLOT + 1))

/-- Embeds `AnyUserData::set_named_user_value` (src/userdata.rs:850-880):
name-addressed user values always go through the overflow table
(`lua_rawset`), created on first use. -/
def AnyUserData.set_named_user_value (ud : UserDataState) (name : String)
    (v : LuaValue) : Except Error UserDataState :=
  match ud.slot with
  | .destructed => .error .UserDataDestructed
  | .live _ =>
    let t := ud.overflow.getD emptyOverflow
    let t2 : OverflowTable :=
      { t with names := fun s => if s = name then v else t.names s }
    .ok { ud with overflow := some t2 }

/-- Embeds `AnyUserData::named_user_value` (src/userdata.rs:885-906). -/
def AnyUserData.named_user_value (ud : UserDataState) (name : String) :
    Except Error LuaValue :=
  match ud.slot with
  | .destructed => .error .UserDataDestructed
  | .live _ =>
    match ud.overflow with
    | none => .ok .nil
    | some t => .ok (t.names name)

/-- The environment `AnyUserData::equals` consults: slot identities are `Nat`,
`metatableOf` gives each slot's metatable identity (`get_raw_metatable`,
compared by table identity), `mtHasEq` is `mt.contains_key("__eq")`, and
`callEq` abstracts calling the user-declared `__eq` function of a metatable on
the two handles. -/
structure EqEnv where
  metatableOf : Nat → Nat
  mtHasEq : Nat → Bool
  callEq : Nat → Nat → Nat → Bool

/-- Embeds `AnyUserData::equals` (src/userdata.rs:989-1006): raw identity first
(`PartialEq for AnyUserData`, src/userdata.rs:1045-1049, compares the
underlying value references, i.e. heap slots), then metatable identity, then
the user-declared `__eq` metamethod when present, else `false`. -/
def AnyUserData.equals (env : EqEnv) (a b : Nat) : Bool :=
  if a = b then true
  else if env.metatableOf a ≠ env.metatableOf b then false
  else if env.mtHasEq (env.metatableOf a) then env.callEq (env.metatableOf a) a b
  else false

/-- The borrow state of one `RefCell` entry of the app-data container. -/
inductive EntryBorrow where
  | free
  | reading (n : Nat)
  | writing
deriving DecidableEq, Repr

/-- One entry of the app-data container: the boxed value (abstracted to `Nat`)
and its `RefCell` borrow flag. -/
structure AppDataEntry where
  val : Nat
  cell : EntryBorrow
deriving DecidableEq

/-- Embeds `AppData` (src/types/app_data.rs:21-24): the `TypeId → RefCell<Box<dyn Any>>`
container (type identities abstracted to `Nat`) plus the single store-wide
outstanding-borrow counter (field `borrow` in the source). -/
structure AppData where
  container : Nat → Option AppDataEntry
  borrowCount : Nat

/-- Embeds `AppData::try_insert` (src/types/app_data.rs:35-43): when the
store-wide counter is nonzero, `Err(data)` hands the input back and the
container is untouched; otherwise the entry is replaced by a fresh `RefCell`
and the prior value of the same type is returned. -/
def AppData.try_insert (s : AppData) (t v : Nat) : Except Nat (Option Nat) × AppData :=
  if s.borrowCount ≠ 0 then (.error v, s)
  else
    (.ok ((s.container t).map AppDataEntry.val),
     { s with container := fun u => if u = t then some ⟨v, .free⟩ else s.container u })

/-- Embeds `AppData::insert` (src/types/app_data.rs:28-33): `try_insert`, with
the `Err` case escalated to a panic (`none`). -/
def AppData.insert (s : AppData) (t v : Nat) : Option (Option Nat × AppData) :=
  match s.try_insert t v with
  | (.ok prev, s2) => some (prev, s2)
  | (.error _, _) => none

/-- Embeds `AppData::remove` (src/types/app_data.rs:74-86): panics (`none`)
while the store-wide counter is nonzero; otherwise removes and returns the
entry for `t` when present. -/
def AppData.remove (s : AppData) (t : Nat) : Option (Option Nat × AppData) :=
  if s.borrowCount ≠ 0 then none
  else
    match s.container t with
    | none => some (none, s)
    | some e => some (some e.val,
        { s with container := fun u => if u = t then none else s.container u })

/-- Result of `AppData::borrow` / `borrow_mut`: `absent` is the `None` return
(no entry for the type), `fault` is the `RefCell` borrow panic, `got` carries
the guarded value and the post-state. -/
inductive AppDataOutcome (α : Type) where
  | absent
  | fault
  | got (a : α)
deriving DecidableEq

/-- Embeds `AppData::borrow` (src/types/app_data.rs:46-56): the `?` on
container lookup returns `None` for an absent entry; `RefCell::borrow` panics
when the entry is mutably borrowed; otherwise the store-wide counter is
incremented and a guard is produced. -/
def AppData.borrow (s : AppData) (t : Nat) : AppDataOutcome (Nat × AppData) :=
  match s.container t with
  | none => .absent
  | some e =>
    match e.cell with
    | .writing => .fault
    | .free => .got (e.val,
        { container := fun u => if u = t then some ({ e with cell := .reading 1 })
            else s.container u,
          borrowCount := s.borrowCount + 1 })
    | .reading n => .got (e.val,
        { container := fun u => if u = t then some ({ e with cell := .reading (n + 1) })
            else s.container u,
          borrowCount := s.borrowCount + 1 })

/-- Embeds `AppData::borrow_mut` (src/types/app_data.rs:59-72):
`RefCell::borrow_mut` panics when the entry is borrowed at all. -/
def AppData.borrow_mut (s : AppData) (t : Nat) : AppDataOutcome (Nat × AppData) :=
  match s.container t with
  | none => .absent
  | some e =>
    match e.cell with
    | .free => .got (e.val,
        { container := fun u => if u = t then some ({ e with cell := .writing })
            else s.container u,
          borrowCount := s.borrowCount + 1 })
    | _ => .fault

/-- Embeds dropping an `AppDataRef` guard for type `t`
(src/types/app_data.rs:98-102): the store-wide counter is decremented and the
entry's `Ref` releases its `RefCell` borrow. -/
def AppData.dropRef (s : AppData) (t : Nat) : AppData :=
  { container := fun u =>
      if u = t then
        (s.container u).map (fun e =>
          { e with cell :=
              match e.cell with
              | .reading 1 => .free
              | .reading (n + 1) => .reading n
              | c => c })
      else s.container u,
    borrowCount := s.borrowCount - 1 }

/-- A concrete live userdata handle used by the witnesses: stored type identity
`0`, wrapped host value `5`, no outstanding borrow, no user values set. -/
def udExample : UserDataState :=
  { typeId := some 0, slot := .live 5, borrow := .unborrowed,
    fastSlots := fun _ => .nil, overflow := none }

/-- A concrete userdata handle whose stored type identity is `1`, used by the
witnesses to exercise the type-mismatch paths against `T = 0`. -/
def udMismatch : UserDataState :=
  { typeId := some 1, slot := .live 5, borrow := .unborrowed,
    fastSlots := fun _ => .nil, overflow := none }

/-- A concrete metatable used by the witnesses: every key reads as `nil`. -/
def mtExample : Metatable := fun _ => .nil

/-- A concrete empty app-data store with no outstanding borrow. -/
def sExample : AppData := { container := fun _ => none, borrowCount := 0 }

/-- A concrete app-data store with an outstanding borrow (counter 1). -/
def sBusy : AppData := { container := fun _ => none, borrowCount := 1 }

/-- A concrete app-data store holding a mutably-borrowed entry at type key `0`
and a shared-borrowed entry at type key `1`. -/
def sBorrowed : AppData :=
  { container := fun u => if u = 0 then some ⟨7, .writing⟩
      else if u = 1 then some ⟨9, .reading 1⟩ else none,
    borrowCount := 2 }

/-- Helper: `validate` rejects exactly the reserved names, with the
`MetaMethodRestricted` error carrying the offending name. -/
theorem validate_err_of_reserved {k : String}
    (h : k = "__gc" ∨ k = "__metatable" ∨ strStarts k "__mlua" = true) :
    MetaMethod.validate k = .error (.MetaMethodRestricted k) := by
  unfold MetaMethod.validate
  rcases h with h | h | h
  · subst h; rfl
  · subst h; rfl
  · have h1 : k ≠ "__gc" := by rintro rfl; exact absurd h (by decide)
    have h2 : k ≠ "__metatable" := by rintro rfl; exact absurd h (by decide)
    simp [h1, h2, h]

/-- Helper: `validate` passes a non-reserved name through unchanged. -/
theorem validate_ok_of_not_reserved {k : String}
    (h : ¬(k = "__gc" ∨ k = "__metatable" ∨ strStarts k "__mlua" = true)) :
    MetaMethod.validate k = .ok k := by
  unfold MetaMethod.validate
  push_neg at h
  obtain ⟨h1, h2, h3⟩ := h
  simp [h1, h2, h3]

/-- C5: `MetaMethod::validate(name)` returns the `MetaMethodRestricted` error
exactly when `name` is `__gc`, `__metatable` or begins with `__mlua`; for every
other name it returns the name unchanged. -/
theorem metamethod_validate_spec (name : String) :
    (MetaMethod.validate name = .error (.MetaMethodRestricted name) ↔
      (name = "__gc" ∨ name = "__metatable" ∨ strStarts name "__mlua" = true)) ∧
    (MetaMethod.validate name = .ok name ↔
      ¬(name = "__gc" ∨ name = "__metatable" ∨ strStarts name "__mlua" = true)) := by
  by_cases h : name = "__gc" ∨ name = "__metatable" ∨ strStarts name "__mlua" = true
  · rw [validate_err_of_reserved h]
    simp [h]
  · rw [validate_ok_of_not_reserved h]
    simp [h]

/-- C6: `UserDataMetatable::set` rejects `__index` and `__newindex` with
`MetaMethodRestricted` in addition to the reserved set (`__gc`, `__metatable`,
`__mlua`-prefixed), while `get` and `contains` reject only the reserved set, so
reading `__index` / `__newindex` through the metatable handle succeeds but
writing them never does. -/
theorem metatable_restrictions (mt : Metatable) (key : String) (v : LuaValue)
    (hres : key = "__gc" ∨ key = "__metatable" ∨ strStarts key "__mlua" = true) :
    UserDataMetatable.set mt "__index" v = .error (.MetaMethodRestricted "__index") ∧
    UserDataMetatable.set mt "__newindex" v = .error (.MetaMethodRestricted "__newindex") ∧
    UserDataMetatable.set mt key v = .error (.MetaMethodRestricted key) ∧
    UserDataMetatable.get mt key = .error (.MetaMethodRestricted key) ∧
    UserDataMetatable.contains mt key = .error (.MetaMethodRestricted key) ∧
    UserDataMetatable.get mt "__index" = .ok (mt "__index") ∧
    UserDataMetatable.get mt "__newindex" = .ok (mt "__newindex") ∧
    UserDataMetatable.contains mt "__index" = .ok (decide (mt "__index" ≠ LuaValue.nil)) := by
  have hv := validate_err_of_reserved hres
  refine ⟨rfl, rfl, ?_, ?_, ?_, rfl, rfl, rfl⟩ <;>
    simp [UserDataMetatable.set, UserDataMetatable.get, UserDataMetatable.contains, hv,
      Except.map]

/-- Witness for C6 at the concrete metatable `mtExample` and reserved key
`__gc`. -/
theorem metatable_restrictions_witness :
    UserDataMetatable.set mtExample "__index" LuaValue.nil =
      .error (.MetaMethodRestricted "__index") ∧
    UserDataMetatable.set mtExample "__newindex" LuaValue.nil =
      .error (.MetaMethodRestricted "__newindex") ∧
    UserDataMetatable.set mtExample "__gc" LuaValue.nil =
      .error (.MetaMethodRestricted "__gc") ∧
    UserDataMetatable.get mtExample "__gc" = .error (.MetaMethodRestricted "__gc") ∧
    UserDataMetatable.contains mtExample "__gc" = .error (.MetaMethodRestricted "__gc") ∧
    UserDataMetatable.get mtExample "__index" = .ok (mtExample "__index") ∧
    UserDataMetatable.get mtExample "__newindex" = .ok (mtExample "__newindex") ∧
    UserDataMetatable.contains mtExample "__index" =
      .ok (decide (mtExample "__index" ≠ LuaValue.nil)) :=
  metatable_restrictions mtExample "__gc" LuaValue.nil (Or.inl rfl)

/-- C1: for a handle whose stored type identity is `T`, `take` fails with the
borrow-conflict error while any borrow of the value is live; with no live
borrow it succeeds, extracting the wrapped value and installing the permanent
destructed sentinel; after any successful `take`, and on any already-destructed
handle, every further `take` / `borrow` / `borrow_mut` fails with the
Destructed error — so `take` succeeds at most once. -/
theorem take_lifecycle (ud : UserDataState) (T v : Nat)
    (htype : ud.typeId = some T) :
    (ud.slot = .live v → ud.borrow ≠ .unborrowed →
      AnyUserData.take ud T = .error .UserDataBorrowMutError) ∧
    (ud.slot = .live v → ud.borrow = .unborrowed →
      AnyUserData.take ud T = .ok (v, { ud with slot := .destructed })) ∧
    (∀ p, AnyUserData.take ud T = .ok p →
      AnyUserData.take p.2 T = .error .UserDataDestructed ∧
      AnyUserData.borrow p.2 T = .error .UserDataDestructed ∧
      AnyUserData.borrow_mut p.2 T = .error .UserDataDestructed) ∧
    (ud.slot = .destructed →
      AnyUserData.take ud T = .error .UserDataDestructed ∧
      AnyUserData.borrow ud T = .error .UserDataDestructed ∧
      AnyUserData.borrow_mut ud T = .error .UserDataDestructed) := by
  obtain ⟨tid, sl, b, fs, ov⟩ := ud
  simp only at htype
  subst htype
  refine ⟨?_, ?_, ?_, ?_⟩
  · rintro rfl hb
    cases b with
    | unborrowed => exact absurd rfl hb
    | shared n => simp [AnyUserData.take, tryBorrowMutCell]
    | exclusive => simp [AnyUserData.take, tryBorrowMutCell]
  · rintro rfl rfl
    simp [AnyUserData.take, tryBorrowMutCell]
  · rintro ⟨w, ud2⟩ hp
    cases sl with
    | destructed => simp [AnyUserData.take] at hp
    | live u =>
      cases b with
      | unborrowed =>
        simp [AnyUserData.take, tryBorrowMutCell] at hp
        obtain ⟨rfl, rfl⟩ := hp
        exact ⟨rfl, rfl, rfl⟩
      | shared n => simp [AnyUserData.take, tryBorrowMutCell] at hp
      | exclusive => simp [AnyUserData.take, tryBorrowMutCell] at hp
  · rintro rfl
    exact ⟨rfl, rfl, rfl⟩

/-- Witness for C1 at concrete handles: a successful `take`, a `take` on the
resulting destructed handle, and a `take` under a live exclusive borrow. -/
theorem take_lifecycle_witness :
    AnyUserData.take udExample 0 = .ok (5, { udExample with slot := .destructed }) ∧
    AnyUserData.take { udExample with slot := .destructed } 0 =
      .error .UserDataDestructed ∧
    AnyUserData.borrow { udExample with slot := .destructed } 0 =
      .error .UserDataDestructed ∧
    AnyUserData.take { udExample with borrow := .exclusive } 0 =
      .error .UserDataBorrowMutError := by
  refine ⟨?_, ?_, ?_, ?_⟩
  · exact (take_lifecycle udExample 0 5 rfl).2.1 rfl rfl
  · exact ((take_lifecycle { udExample with slot := .destructed } 0 5 rfl).2.2.2 rfl).1
  · exact ((take_lifecycle { udExample with slot := .destructed } 0 5 rfl).2.2.2 rfl).2.1
  · exact (take_lifecycle { udExample with borrow := .exclusive } 0 5 rfl).1 rfl (by decide)

/-- C10: a successful `take` changes only the heap slot — the wrapped value is
extracted and the metatable is demoted to the destructed sentinel — while the
stored type identity, the borrow state, the fast user-value slots and the
overflow table (indexed and named user values) are all left unchanged. -/
theorem take_frame (ud : UserDataState) (T v : Nat) (ud2 : UserDataState)
    (h : AnyUserData.take ud T = .ok (v, ud2)) :
    ud.slot = .live v ∧
    ud2 = { ud with slot := .destructed } ∧
    ud2.fastSlots = ud.fastSlots ∧
    ud2.overflow = ud.overflow ∧
    ud2.typeId = ud.typeId ∧
    ud2.borrow = ud.borrow := by
  obtain ⟨tid, sl, b, fs, ov⟩ := ud
  cases sl with
  | destructed => simp [AnyUserData.take] at h
  | live w =>
    cases tid with
    | none => simp [AnyUserData.take] at h
    | some t =>
      by_cases ht : t = T
      · subst ht
        cases b with
        | unborrowed =>
          simp [AnyUserData.take, tryBorrowMutCell] at h
          obtain ⟨rfl, rfl⟩ := h
          exact ⟨rfl, rfl, rfl, rfl, rfl, rfl⟩
        | shared n => simp [AnyUserData.take, tryBorrowMutCell] at h
        | exclusive => simp [AnyUserData.take, tryBorrowMutCell] at h
      · simp [AnyUserData.take, ht] at h

/-- Witness for C10 at the concrete handle `udExample`. -/
theorem take_frame_witness :
    udExample.slot = .live 5 ∧
    ({ udExample with slot := .destructed } : UserDataState) =
      { udExample with slot := .destructed } ∧
    ({ udExample with slot := .destructed } : UserDataState).fastSlots =
      udExample.fastSlots ∧
    ({ udExample with slot := .destructed } : UserDataState).overflow =
      udExample.overflow ∧
    ({ udExample with slot := .destructed } : UserDataState).typeId =
      udExample.typeId ∧
    ({ udExample with slot := .destructed } : UserDataState).borrow =
      udExample.borrow :=
  take_frame udExample 0 5 { udExample with slot := .destructed } rfl

/-- C4: on a live handle whose stored type identity is not `T`, `is` returns
`false` and `borrow` / `borrow_mut` / `take` all return the TypeMismatch error,
for every borrow state of the cell and before any access to the stored value —
the error return leaves the cell's borrow state untouched. -/
theorem type_mismatch_guard (ud : UserDataState) (T : Nat)
    (hlive : ud.slot ≠ .destructed) (hmism : ud.typeId ≠ some T) :
    AnyUserData.is ud T = false ∧
    AnyUserData.borrow ud T = .error .UserDataTypeMismatch ∧
    AnyUserData.borrow_mut ud T = .error .UserDataTypeMismatch ∧
    AnyUserData.take ud T = .error .UserDataTypeMismatch := by
  obtain ⟨tid, sl, b, fs, ov⟩ := ud
  cases sl with
  | destructed => exact absurd rfl hlive
  | live w =>
    cases tid with
    | none => exact ⟨rfl, rfl, rfl, rfl⟩
    | some t =>
      have ht : t ≠ T := by
        intro h
        exact hmism (by simp only at *; rw [h])
      refine ⟨?_, ?_, ?_, ?_⟩ <;>
        simp [AnyUserData.is, AnyUserData.borrow, AnyUserData.borrow_mut,
          AnyUserData.take, ht]

/-- Witness for C4 at the concrete handle `udMismatch` (stored type identity
`1`) against `T = 0`. -/
theorem type_mismatch_guard_witness :
    AnyUserData.is udMismatch 0 = false ∧
    AnyUserData.borrow udMismatch 0 = .error .UserDataTypeMismatch ∧
    AnyUserData.borrow_mut udMismatch 0 = .error .UserDataTypeMismatch ∧
    AnyUserData.take udMismatch 0 = .error .UserDataTypeMismatch :=
  type_mismatch_guard udMismatch 0 (by decide) (by decide)

/-- C2: on any live handle, setting user-value index 7 (the last fast native
slot) and then index 8 (the first overflow-table entry) leaves both values
independently retrievable: the set and get paths agree on the
`n < USER_VALUE_MAXSLOT` fast-slot test and on the `n - USER_VALUE_MAXSLOT + 1`
overflow key, so the fast-slot/table boundary is observationally
transparent. -/
theorem user_value_boundary (ud : UserDataState) (v7 v8 : LuaValue)
    (hlive : ud.slot ≠ .destructed) :
    ∃ ud1 ud2,
      AnyUserData.set_nth_user_value ud 7 v7 = .ok ud1 ∧
      AnyUserData.set_nth_user_value ud1 8 v8 = .ok ud2 ∧
      AnyUserData.nth_user_value ud2 7 = .ok v7 ∧
      AnyUserData.nth_user_value ud2 8 = .ok v8 := by
  obtain ⟨tid, sl, b, fs, ov⟩ := ud
  cases sl with
  | destructed => exact absurd rfl hlive
  | live w =>
    cases ov with
    | none => exact ⟨_, _, rfl, rfl, rfl, rfl⟩
    | some t0 => exact ⟨_, _, rfl, rfl, rfl, rfl⟩

/-- Witness for C2 at the concrete handle `udExample`. -/
theorem user_value_boundary_witness :
    ∃ ud1 ud2,
      AnyUserData.set_nth_user_value udExample 7 (.integer 7) = .ok ud1 ∧
      AnyUserData.set_nth_user_value ud1 8 (.integer 8) = .ok ud2 ∧
      AnyUserData.nth_user_value ud2 7 = .ok (.integer 7) ∧
      AnyUserData.nth_user_value ud2 8 = .ok (.integer 8) :=
  user_value_boundary udExample (.integer 7) (.integer 8) (by decide)

/-- C7: for `n < 1` or `n > 65535` both `set_nth_user_value` and
`nth_user_value` fail with the dedicated out-of-range error before touching the
userdata (so its user values are unchanged), while every index in `1..=65535`
passes the range check — an in-range call never produces that error. -/
theorem user_value_index_range (ud : UserDataState) (n : Nat) (v : LuaValue) :
    ((n < 1 ∨ n > U16_MAX) →
      AnyUserData.set_nth_user_value ud n v = .error userValueIndexOutOfRange ∧
      AnyUserData.nth_user_value ud n = .error userValueIndexOutOfRange) ∧
    (1 ≤ n → n ≤ U16_MAX →
      AnyUserData.set_nth_user_value ud n v ≠ .error userValueIndexOutOfRange ∧
      AnyUserData.nth_user_value ud n ≠ .error userValueIndexOutOfRange) := by
  constructor
  · intro h
    constructor
    · unfold AnyUserData.set_nth_user_value
      rw [if_pos h]
    · unfold AnyUserData.nth_user_value
      rw [if_pos h]
  · intro h1 h2
    have hc : ¬(n < 1 ∨ n > U16_MAX) := by
      unfold U16_MAX at h2 ⊢
      omega
    obtain ⟨tid, sl, b, fs, ov⟩ := ud
    constructor
    · unfold AnyUserData.set_nth_user_value
      rw [if_neg hc]
      cases sl with
      | destructed => simp [userValueIndexOutOfRange]
      | live w =>
        by_cases hm : n < USER_VALUE_MAXSLOT
        · rw [if_pos hm]; simp
        · rw [if_neg hm]; simp
    · unfold AnyUserData.nth_user_value
      rw [if_neg hc]
      cases sl with
      | destructed => simp [userValueIndexOutOfRange]
      | live w =>
        by_cases hm : n < USER_VALUE_MAXSLOT
        · rw [if_pos hm]; simp
        · rw [if_neg hm]
          cases ov with
          | none => simp
          | some t0 => simp

/-- Witness for C7: index 70000 is rejected with the dedicated error, index 3
passes the range check, on the concrete handle `udExample`. -/
theorem user_value_index_range_witness :
    (AnyUserData.set_nth_user_value udExample 70000 LuaValue.nil =
        .error userValueIndexOutOfRange ∧
      AnyUserData.nth_user_value udExample 70000 = .error userValueIndexOutOfRange) ∧
    (AnyUserData.set_nth_user_value udExample 3 LuaValue.nil ≠
        .error userValueIndexOutOfRange ∧
      AnyUserData.nth_user_value udExample 3 ≠ .error userValueIndexOutOfRange) :=
  ⟨(user_value_index_range udExample 70000 LuaValue.nil).1 (Or.inr (by decide)),
   (user_value_index_range udExample 3 LuaValue.nil).2 (by decide) (by decide)⟩

/-- C8: `equals` returns `true` whenever the two handles reference the
identical heap slot; for distinct slots it returns `false` when the metatables
differ, consults the user-declared `__eq` metamethod when the metatables agree
and one is present, and returns `false` when none is. -/
theorem equals_spec (env : EqEnv) (a b : Nat) :
    (a = b → AnyUserData.equals env a b = true) ∧
    (a ≠ b → env.metatableOf a ≠ env.metatableOf b →
      AnyUserData.equals env a b = false) ∧
    (a ≠ b → env.metatableOf a = env.metatableOf b →
      env.mtHasEq (env.metatableOf a) = true →
      AnyUserData.equals env a b = env.callEq (env.metatableOf a) a b) ∧
    (a ≠ b → env.metatableOf a = env.metatableOf b →
      env.mtHasEq (env.metatableOf a) = false →
      AnyUserData.equals env a b = false) := by
  refine ⟨?_, ?_, ?_, ?_⟩
  · intro h
    simp [AnyUserData.equals, h]
  · intro h1 h2
    simp [AnyUserData.equals, h1, h2]
  · intro h1 h2 h3
    unfold AnyUserData.equals
    rw [if_neg h1, if_neg (fun hne => hne h2), if_pos h3]
  · intro h1 h2 h3
    unfold AnyUserData.equals
    rw [if_neg h1, if_neg (fun hne => hne h2), if_neg (by simp [h3])]

/-- A concrete environment for the C8 witness: slots 0 and 1 share metatable 0,
which declares `__eq`; slot 2 has a different metatable 1 without `__eq`. -/
def envExample : EqEnv :=
  { metatableOf := fun s => if s ≤ 1 then 0 else 1,
    mtHasEq := fun m => m = 0,
    callEq := fun _ x y => x + y = 1 }

/-- Witness for C8 in the concrete environment `envExample`. -/
theorem equals_spec_witness :
    AnyUserData.equals envExample 0 0 = true ∧
    AnyUserData.equals envExample 0 2 = false ∧
    AnyUserData.equals envExample 0 1 = envExample.callEq (envExample.metatableOf 0) 0 1 ∧
    AnyUserData.equals envExample 2 3 = false :=
  ⟨(equals_spec envExample 0 0).1 rfl,
   (equals_spec envExample 0 2).2.1 (by decide) (by decide),
   (equals_spec envExample 0 1).2.2.1 (by decide) (by decide) (by decide),
   (equals_spec envExample 2 3).2.2.2 (by decide) (by decide) (by decide)⟩

/-- C9: `AppData::borrow` and `borrow_mut` return `None` exactly when the
store has no entry for the type key; when the entry exists but conflicts (it is
mutably borrowed, or — for `borrow_mut` — borrowed at all), the call does not
return `None`: it faults (panics via the entry's `RefCell`). -/
theorem app_data_borrow_absence (s : AppData) (t : Nat) :
    (AppData.borrow s t = .absent ↔ s.container t = none) ∧
    (AppData.borrow_mut s t = .absent ↔ s.container t = none) ∧
    (∀ e, s.container t = some e → e.cell = .writing →
      AppData.borrow s t = .fault) ∧
    (∀ e, s.container t = some e → e.cell ≠ .free →
      AppData.borrow_mut s t = .fault) := by
  refine ⟨?_, ?_, ?_, ?_⟩
  · unfold AppData.borrow
    cases hc : s.container t with
    | none => simp
    | some e =>
      obtain ⟨w, c⟩ := e
      cases c <;> simp
  · unfold AppData.borrow_mut
    cases hc : s.container t with
    | none => simp
    | some e =>
      obtain ⟨w, c⟩ := e
      cases c <;> simp
  · intro e hc hw
    unfold AppData.borrow
    rw [hc]
    obtain ⟨w, c⟩ := e
    cases c with
    | writing => rfl
    | free => simp at hw
    | reading n => simp at hw
  · intro e hc hw
    unfold AppData.borrow_mut
    rw [hc]
    obtain ⟨w, c⟩ := e
    cases c with
    | free => exact absurd rfl hw
    | reading n => rfl
    | writing => rfl

/-- Witness for C9 on the concrete store `sBorrowed` (type key 0 mutably
borrowed, type key 1 shared-borrowed, type key 2 absent). -/
theorem app_data_borrow_absence_witness :
    (AppData.borrow sBorrowed 2 = .absent ↔ sBorrowed.container 2 = none) ∧
    AppData.borrow sBorrowed 0 = .fault ∧
    AppData.borrow_mut sBorrowed 0 = .fault ∧
    AppData.borrow_mut sBorrowed 1 = .fault :=
  ⟨(app_data_borrow_absence sBorrowed 2).1,
   (app_data_borrow_absence sBorrowed 0).2.2.1 ⟨7, .writing⟩ rfl rfl,
   (app_data_borrow_absence sBorrowed 0).2.2.2 ⟨7, .writing⟩ rfl (by decide),
   (app_data_borrow_absence sBorrowed 1).2.2.2 ⟨9, .reading 1⟩ rfl (by decide)⟩

/-- Helper: borrowing a free entry yields its value, marks the entry shared and
increments the store-wide counter. -/
theorem borrow_free_entry (s : AppData) (t v : Nat)
    (h : s.container t = some ⟨v, .free⟩) :
    AppData.borrow s t = .got (v,
      { container := fun u => if u = t then some ⟨v, .reading 1⟩ else s.container u,
        borrowCount := s.borrowCount + 1 }) := by
  unfold AppData.borrow
  rw [h]

/-- Helper: with no outstanding borrow, `remove` never faults. -/
theorem remove_no_borrow (s : AppData) (t : Nat) (h : s.borrowCount = 0) :
    ∃ r, AppData.remove s t = some r := by
  unfold AppData.remove
  rw [h]
  cases hc : s.container t with
  | none => exact ⟨(none, s), by simp⟩
  | some e =>
    exact ⟨(some e.val,
      { container := fun u => if u = t then none else s.container u,
        borrowCount := 0 }), by simp [h]⟩

/-- C3: while the store-wide outstanding-borrow counter is nonzero,
`try_insert` hands the input value back unchanged and leaves the container
unmodified, and `insert` and `remove` fault; with the counter at zero, `insert`
and `remove` succeed — in particular, after inserting type `t`, borrowing it
(counter becomes nonzero, so removing any type `u` faults), and dropping the
guard, removing type `u` succeeds. -/
theorem app_data_gating (s : AppData) (t u v : Nat) :
    (s.borrowCount ≠ 0 →
      AppData.try_insert s t v = (.error v, s) ∧
      AppData.insert s t v = none ∧
      AppData.remove s t = none) ∧
    (s.borrowCount = 0 →
      (∃ p, AppData.insert s t v = some p) ∧
      (∃ q, AppData.remove s t = some q) ∧
      (∃ s1 s2,
        AppData.insert s t v = some ((s.container t).map AppDataEntry.val, s1) ∧
        AppData.borrow s1 t = .got (v, s2) ∧
        s2.borrowCount ≠ 0 ∧
        AppData.remove s2 u = none ∧
        (∃ r, AppData.remove (AppData.dropRef s2 t) u = some r))) := by
  constructor
  · intro h
    refine ⟨?_, ?_, ?_⟩
    · unfold AppData.try_insert
      rw [if_pos h]
    · unfold AppData.insert AppData.try_insert
      rw [if_pos h]
    · unfold AppData.remove
      rw [if_pos h]
  · intro h
    obtain ⟨c, bc⟩ := s
    simp only at h
    subst h
    refine ⟨⟨_, rfl⟩, remove_no_borrow _ t rfl, ?_⟩
    refine ⟨{ container := fun x => if x = t then some ⟨v, .free⟩ else c x,
              borrowCount := 0 },
            { container := fun x => if x = t then some ⟨v, .reading 1⟩
                else if x = t then some ⟨v, .free⟩ else c x,
              borrowCount := 0 + 1 }, rfl, ?_, ?_, ?_, ?_⟩
    · exact borrow_free_entry _ t v (by simp)
    · simp
    · simp [AppData.remove]
    · exact remove_no_borrow _ u rfl

/-- Witness for C3: the busy store `sBusy` rejects structural modification; on
the empty store `sExample` the insert / borrow / blocked-remove / drop /
remove scenario goes through with type keys 0 and 1. -/
theorem app_data_gating_witness :
    (AppData.try_insert sBusy 0 42 = (.error 42, sBusy) ∧
      AppData.insert sBusy 0 42 = none ∧
      AppData.remove sBusy 0 = none) ∧
    ((∃ p, AppData.insert sExample 0 42 = some p) ∧
      (∃ q, AppData.remove sExample 0 = some q) ∧
      (∃ s1 s2,
        AppData.insert sExample 0 42 =
          some ((sExample.container 0).map AppDataEntry.val, s1) ∧
        AppData.borrow s1 0 = .got (42, s2) ∧
        s2.borrowCount ≠ 0 ∧
        AppData.remove s2 1 = none ∧
        (∃ r, AppData.remove (AppData.dropRef s2 0) 1 = some r))) :=
  ⟨(app_data_gating sBusy 0 1 42).1 (by decide),
   (app_data_gating sExample 0 1 42).2 rfl⟩

end Mlua
